import Mathlib

/-!
Verification of the Pronto idea-expansion server (deco-cx/pronto).

The development shallowly embeds the data model and the tool handlers of the
server: JSON documents become an inductive `Json` type, JavaScript objects
become ordered association lists, the relational store becomes an explicit
`DB` value threaded through each tool, and the external structured-generation
call becomes an oracle argument.  Numbers are modeled as rationals (the code
only manipulates small scores and counts).
-/

namespace Pronto

/-- JSON values as stored and exchanged by the tools (`expanded_data` and
`criteria` columns, AI responses, schema descriptors). -/
inductive Json : Type where
  | str : String → Json
  | num : ℚ → Json
  | bool : Bool → Json
  | null : Json
  | arr : List Json → Json
  | obj : List (String × Json) → Json

/-- Property read `o[k]` on a JavaScript object, modeled as first-match lookup
in an ordered association list (JS objects have unique keys). -/
def alistLookup (l : List (String × α)) (k : String) : Option α :=
  (l.find? (fun p => p.1 == k)).map (fun p => p.2)

/-- `k in o`: whether a key is present. -/
def alistHasKey (l : List (String × α)) (k : String) : Bool :=
  l.any (fun p => p.1 == k)

/-- The entry rewrite performed by an in-place property assignment. -/
def setFn (k : String) (v : α) (p : String × α) : String × α :=
  if p.1 == k then (k, v) else p

/-- Property assignment `o[k] = v` (and the per-key step of an object spread):
replaces the value in place when the key exists, appends otherwise — exactly
the key-order behaviour of JavaScript objects. -/
def alistSet (l : List (String × α)) (k : String) (v : α) : List (String × α) :=
  if alistHasKey l k then l.map (setFn k v) else l ++ [(k, v)]

/-- The object spread `{...base, ...ov}`: assign each key of `ov` in order on
top of a copy of `base`. -/
def jsSpread (base ov : List (String × α)) : List (String × α) :=
  ov.foldl (fun acc p => alistSet acc p.1 p.2) base

theorem alistLookup_nil (k : String) : alistLookup ([] : List (String × α)) k = none := rfl

theorem alistLookup_cons (p : String × α) (t : List (String × α)) (k : String) :
    alistLookup (p :: t) k = if p.1 == k then some p.2 else alistLookup t k := by
  cases h : p.1 == k <;> simp [alistLookup, List.find?, h]

theorem alistHasKey_cons (p : String × α) (t : List (String × α)) (k : String) :
    alistHasKey (p :: t) k = (p.1 == k || alistHasKey t k) := by
  simp [alistHasKey]

theorem setFn_of_beq_true {k : String} {v : α} {p : String × α}
    (h : (p.1 == k) = true) : setFn k v p = (k, v) := by
  simp [setFn, h]

theorem setFn_of_beq_false {k : String} {v : α} {p : String × α}
    (h : (p.1 == k) = false) : setFn k v p = p := by
  simp [setFn, h]

theorem setFn_fst_beq (k : String) (v : α) (p : String × α) :
    ((setFn k v p).1 == k) = (p.1 == k) := by
  cases h : p.1 == k
  · rw [setFn_of_beq_false h, h]
  · rw [setFn_of_beq_true h]
    simp

theorem alistLookup_append (l₁ l₂ : List (String × α)) (k : String) :
    alistLookup (l₁ ++ l₂) k =
      match alistLookup l₁ k with
      | some v => some v
      | none => alistLookup l₂ k := by
  induction l₁ with
  | nil => simp [alistLookup_nil]
  | cons p t ih =>
    cases h : p.1 == k <;>
      simp [List.cons_append, alistLookup_cons, h, ih]

theorem not_hasKey_lookup_none (l : List (String × α)) (k : String)
    (h : alistHasKey l k = false) : alistLookup l k = none := by
  induction l with
  | nil => rfl
  | cons p t ih =>
    rw [alistHasKey_cons] at h
    rcases Bool.or_eq_false_iff.mp h with ⟨h1, h2⟩
    rw [alistLookup_cons, h1, if_neg (by simp)]
    exact ih h2

theorem not_hasKey_keys_ne (l : List (String × α)) (k : String)
    (h : alistHasKey l k = false) : ∀ p ∈ l, (p.1 == k) = false := by
  intro p hp
  cases hb : p.1 == k
  · rfl
  · have hk : alistHasKey l k = true := List.any_eq_true.mpr ⟨p, hp, hb⟩
    rw [hk] at h
    cases h

theorem hasKey_map_set (l : List (String × α)) (k : String) (v : α) :
    alistHasKey (l.map (setFn k v)) k = alistHasKey l k := by
  induction l with
  | nil => rfl
  | cons p t ih =>
    rw [List.map_cons, alistHasKey_cons, alistHasKey_cons, setFn_fst_beq, ih]

theorem lookup_map_set_self (l : List (String × α)) (k : String) (v : α)
    (h : alistHasKey l k = true) :
    alistLookup (l.map (setFn k v)) k = some v := by
  induction l with
  | nil => simp [alistHasKey] at h
  | cons p t ih =>
    cases hb : p.1 == k
    · rw [alistHasKey_cons, hb, Bool.false_or] at h
      rw [List.map_cons, alistLookup_cons, setFn_fst_beq, hb, if_neg (by simp)]
      exact ih h
    · rw [List.map_cons, setFn_of_beq_true hb, alistLookup_cons]
      simp

theorem lookup_map_set_ne (l : List (String × α)) (k k' : String) (v : α)
    (h : k' ≠ k) :
    alistLookup (l.map (setFn k v)) k' = alistLookup l k' := by
  induction l with
  | nil => rfl
  | cons p t ih =>
    have h1 : (k == k') = false := by
      simpa using fun hc => h hc.symm
    cases hb : p.1 == k
    · rw [List.map_cons, setFn_of_beq_false hb, alistLookup_cons, alistLookup_cons, ih]
    · have hp1 : p.1 = k := by simpa using hb
      have h2 : (p.1 == k') = false := by rw [hp1]; exact h1
      rw [List.map_cons, setFn_of_beq_true hb, alistLookup_cons, alistLookup_cons, ih]
      simp [h1, h2]

theorem alistSet_of_hasKey {l : List (String × α)} {k : String} (v : α)
    (h : alistHasKey l k = true) : alistSet l k v = l.map (setFn k v) := by
  simp [alistSet, h]

theorem alistSet_of_not_hasKey {l : List (String × α)} {k : String} (v : α)
    (h : alistHasKey l k = false) : alistSet l k v = l ++ [(k, v)] := by
  simp [alistSet, h]

theorem alistLookup_set_self (l : List (String × α)) (k : String) (v : α) :
    alistLookup (alistSet l k v) k = some v := by
  cases h : alistHasKey l k
  · rw [alistSet_of_not_hasKey v h, alistLookup_append, not_hasKey_lookup_none l k h]
    simp [alistLookup_cons]
  · rw [alistSet_of_hasKey v h]
    exact lookup_map_set_self l k v h

theorem alistLookup_set_ne (l : List (String × α)) (k k' : String) (v : α)
    (h : k' ≠ k) : alistLookup (alistSet l k v) k' = alistLookup l k' := by
  cases hk : alistHasKey l k
  · rw [alistSet_of_not_hasKey v hk, alistLookup_append]
    have h1 : (k == k') = false := by
      simpa using fun hc => h hc.symm
    cases hl : alistLookup l k' <;>
      simp [alistLookup_cons, alistLookup_nil, h1, hl]
  · rw [alistSet_of_hasKey v hk]
    exact lookup_map_set_ne l k k' v h

theorem alistSet_idem (l : List (String × α)) (k : String) (v : α) :
    alistSet (alistSet l k v) k v = alistSet l k v := by
  cases h : alistHasKey l k
  · rw [alistSet_of_not_hasKey v h]
    have happ : alistHasKey (l ++ [(k, v)]) k = true := by
      simp [alistHasKey]
    rw [alistSet_of_hasKey v happ, List.map_append]
    have hl : l.map (setFn k v) = l := by
      conv_rhs => rw [← List.map_id l]
      apply List.map_congr_left
      intro p hp
      exact setFn_of_beq_false (not_hasKey_keys_ne l k h p hp)
    rw [hl]
    simp [setFn_of_beq_true]
  · rw [alistSet_of_hasKey v h]
    have h2 : alistHasKey (l.map (setFn k v)) k = true := by
      rw [hasKey_map_set]; exact h
    rw [alistSet_of_hasKey v h2, List.map_map]
    apply List.map_congr_left
    intro p _
    show setFn k v (setFn k v p) = setFn k v p
    cases hb : p.1 == k
    · rw [setFn_of_beq_false hb, setFn_of_beq_false hb]
    · rw [setFn_of_beq_true hb]
      exact setFn_of_beq_true (by simp)

theorem jsSpread_nil (base : List (String × α)) : jsSpread base [] = base := rfl

theorem alistLookup_spread (base ov : List (String × α)) (k : String)
    (h : (ov.map Prod.fst).Nodup) :
    alistLookup (jsSpread base ov) k =
      match alistLookup ov k with
      | some v => some v
      | none => alistLookup base k := by
  induction ov generalizing base with
  | nil => simp [jsSpread_nil, alistLookup_nil]
  | cons p t ih =>
    rw [List.map_cons, List.nodup_cons] at h
    have hstep : jsSpread base (p :: t) = jsSpread (alistSet base p.1 p.2) t := rfl
    rw [hstep, ih _ h.2, alistLookup_cons]
    cases hb : p.1 == k
    · have hk' : k ≠ p.1 := by
        intro hc
        rw [hc] at hb
        simp at hb
      rw [if_neg (by simp), alistLookup_set_ne base p.1 k p.2 hk']
    · have hp1 : p.1 = k := by simpa using hb
      have hfind : t.find? (fun q => q.1 == k) = none := by
        apply List.find?_eq_none.mpr
        intro q hq
        cases hqk : q.1 == k
        · simp
        · exfalso
          apply h.1

          rw [hp1, ← show q.1 = k from by simpa using hqk]
          exact List.mem_map_of_mem Prod.fst hq
      have hlookt : alistLookup t k = none := by
        rw [alistLookup, hfind]
        rfl
      rw [if_pos (by simp), hlookt, hp1, alistLookup_set_self]

/-- `defaultSchemas.sections` from `server/defaultSchemas.ts`: the canonical
per-section schema descriptors (the registry), with each descriptor as an
ordered JS object. -/
def defaultSections : List (String × List (String × Json)) :=
[
  ("title", [
    ("description", Json.str "A clear, compelling title for the Deco MCP application that immediately conveys its purpose and value. Should be concise but descriptive, following naming conventions for MCP servers. Examples: \x27Task Management MCP\x27, \x27E-commerce Analytics Platform\x27, \x27Content Generation Hub\x27"),
    ("type", Json.str "string")]),
  ("description", [
    ("description", Json.str "Detailed description of what the Deco MCP application does, its main purpose, and how it solves user problems. Should explain the core functionality, user benefits, and how it leverages the Deco platform\x27s capabilities (AI, workflows, integrations). Example: \x27A comprehensive task management MCP application that uses AI to automatically categorize and prioritize tasks, integrates with external services like GitHub and Slack, and provides intelligent workflow automation for development teams.\x27"),
    ("type", Json.str "string")]),
  ("features", [
    ("description", Json.str "Main features of the Deco MCP application with clear titles and detailed descriptions that explain user value and functionality. Each feature should leverage Deco platform capabilities like AI generation, workflows, integrations, or database operations. Focus on features that are substantial and meaningful to users."),
    ("type", Json.str "array"),
    ("items", Json.obj [
      ("type", Json.str "object"),
      ("properties", Json.obj [
        ("title", Json.obj [
          ("type", Json.str "string"),
          ("description", Json.str "Feature name that clearly identifies what this feature does for users. Should be action-oriented and specific. Examples: \x27AI-Powered Task Categorization\x27, \x27Real-time Slack Integration\x27, \x27Automated Workflow Triggers\x27")]),
        ("description", Json.obj [
          ("type", Json.str "string"),
          ("description", Json.str "Detailed explanation of the feature\x27s functionality, user benefit, and how it leverages Deco platform capabilities (AI, workflows, integrations, database). Should explain both what it does and why users need it. Include technical implementation details when relevant.")])]),
      ("required", Json.arr [
        Json.str "title",
        Json.str "description"])])]),
  ("architecture", [
    ("description", Json.str "Complete project file structure following Deco MCP template patterns and conventions. Should show the organization of server tools, workflows, frontend components, database schemas, and configuration files. Use the exact structure from successful Deco MCP applications."),
    ("type", Json.str "object"),
    ("properties", Json.obj [
      ("files", Json.obj [
        ("type", Json.str "array"),
        ("items", Json.obj [
          ("type", Json.str "object"),
          ("properties", Json.obj [
            ("path", Json.obj [
              ("type", Json.str "string"),
              ("description", Json.str "File path relative to project root, following Deco MCP conventions. Examples: \x27server/main.ts\x27 (main entry point), \x27server/tools/index.ts\x27 (tool aggregation), \x27server/tools/[domain].ts\x27 (domain-specific tools), \x27server/workflows/[workflow].ts\x27 (workflow definitions), \x27server/schema.ts\x27 (Drizzle database schema), \x27server/db.ts\x27 (database utilities), \x27view/src/main.tsx\x27 (React app entry), \x27view/src/routes/[route].tsx\x27 (TanStack Router routes), \x27view/src/hooks/use[Feature].ts\x27 (TanStack Query hooks), \x27view/src/components/[component].tsx\x27 (UI components), \x27wrangler.toml\x27 (Cloudflare Workers config), \x27package.json\x27 (dependencies)")]),
            ("description", Json.obj [
              ("type", Json.str "string"),
              ("description", Json.str "Clear explanation of what this file contains and its role in the Deco MCP application architecture. Include specific details about imports, exports, and key functionality.")])]),
          ("required", Json.arr [
            Json.str "path",
            Json.str "description"])])])])]),
  ("dataModels", [
    ("description", Json.str "Database entities with Drizzle ORM schemas that represent the core data structures needed for the Deco MCP application. Should cover all main entities, their relationships, and follow Deco platform patterns. Use SQLite with Cloudflare Durable Objects for persistence."),
    ("type", Json.str "array"),
    ("items", Json.obj [
      ("type", Json.str "object"),
      ("properties", Json.obj [
        ("title", Json.obj [
          ("type", Json.str "string"),
          ("description", Json.str "Name of the database entity/table following Drizzle conventions. Examples: \x27users\x27, \x27tasks\x27, \x27projects\x27, \x27integrations\x27, \x27workflows\x27")]),
        ("schema", Json.obj [
          ("type", Json.str "string"),
          ("description", Json.str "Complete Drizzle ORM schema definition as TypeScript code using SQLite syntax. Must include proper imports from \x27@deco/workers-runtime/drizzle\x27, field types (text, integer, real), constraints, relationships, and default values. Example: \x27export const tasks = sqliteTable(\"tasks\", \x7b id: text(\"id\").primaryKey(), title: text(\"title\").notNull(), completed: integer(\"completed\", \x7b mode: \"boolean\" \x7d).default(false), createdAt: integer(\"created_at\", \x7b mode: \"timestamp\" \x7d).default(sql\x60(unixepoch())\x60) \x7d);\x27")])]),
      ("required", Json.arr [
        Json.str "title",
        Json.str "schema"])])]),
  ("tools", [
    ("description", Json.str "MCP tools for the Deco application with Zod schemas that define the core business logic operations. Each tool should represent a specific action users can perform and follow Deco MCP patterns. Tools should be organized by domain and use proper database operations with getDb(env)."),
    ("type", Json.str "array"),
    ("items", Json.obj [
      ("type", Json.str "object"),
      ("properties", Json.obj [
        ("title", Json.obj [
          ("type", Json.str "string"),
          ("description", Json.str "Tool name that clearly describes the operation following Deco conventions. Examples: \x27CREATE_TASK\x27, \x27UPDATE_USER_PROFILE\x27, \x27GENERATE_REPORT\x27, \x27SYNC_INTEGRATION_DATA\x27")]),
        ("description", Json.obj [
          ("type", Json.str "string"),
          ("description", Json.str "Detailed explanation of what the tool does, when it\x27s used, what business logic it implements, and how it interacts with the database or external integrations. Include error handling and validation details.")]),
        ("inputSchema", Json.obj [
          ("type", Json.str "string"),
          ("description", Json.str "Complete Zod schema definition for the tool\x27s input parameters as TypeScript code. Example: \x27z.object(\x7b title: z.string().min(1), description: z.string().optional(), priority: z.enum([\"low\", \"medium\", \"high\"]).default(\"medium\") \x7d)\x27")]),
        ("outputSchema", Json.obj [
          ("type", Json.str "string"),
          ("description", Json.str "Complete Zod schema definition for the tool\x27s output/return value as TypeScript code. Should include success indicators and relevant data. Example: \x27z.object(\x7b id: z.string(), success: z.boolean(), message: z.string().optional() \x7d)\x27")])]),
      ("required", Json.arr [
        Json.str "title",
        Json.str "description",
        Json.str "inputSchema",
        Json.str "outputSchema"])])]),
  ("toolsFromOtherApps", [
    ("description", Json.str "External tools and integrations available through the Deco platform that would enhance this specific application. Focus on genuine value-add services that solve real user problems and are available in the Deco ecosystem. Reference actual integrations from DECO_CHAT_WORKSPACE_API and DECO_CHAT_API."),
    ("type", Json.str "array"),
    ("items", Json.obj [
      ("type", Json.str "object"),
      ("properties", Json.obj [
        ("service", Json.obj [
          ("type", Json.str "string"),
          ("description", Json.str "The service name available through Deco integrations. Examples from the platform: \x27Deco Chat Workspace API\x27 (for AI_GENERATE, AI_GENERATE_OBJECT, DATABASES_RUN_SQL, FS_READ, FS_WRITE), \x27Deco Chat API\x27 (for TEAMS_CREATE, PROFILES_UPDATE, INTEGRATIONS_LIST), \x27GitHub\x27, \x27Slack\x27, \x27Google Sheets\x27, \x27Notion\x27, \x27Stripe\x27, \x27Twilio\x27, \x27SendGrid\x27")]),
        ("toolName", Json.obj [
          ("type", Json.str "string"),
          ("description", Json.str "The specific API tool name within the service. For Deco services, use exact names like \x27AI_GENERATE_OBJECT\x27, \x27DATABASES_RUN_SQL\x27, \x27FS_WRITE\x27, \x27TEAMS_CREATE\x27. For external services, use descriptive names like \x27GitHub Repository API\x27, \x27Slack Messaging API\x27, \x27Google Sheets API\x27")]),
        ("description", Json.obj [
          ("type", Json.str "string"),
          ("description", Json.str "What the tool does and its main capabilities, focusing on the specific features that would be used. For Deco tools, reference the actual functionality from the API (e.g., \x27Generate structured objects using AI models with JSON schema validation\x27, \x27Run SQL queries against workspace database\x27, \x27Upload files to workspace storage\x27)")]),
        ("useCase", Json.obj [
          ("type", Json.str "string"),
          ("description", Json.str "How it would be used specifically in this application context to solve user problems or enhance functionality. Should be concrete and actionable, explaining the integration flow and user benefit. Example: \x27Use AI_GENERATE_OBJECT to automatically categorize user inputs and generate structured data, then store results using DATABASES_RUN_SQL for persistence and retrieval.\x27")])]),
      ("required", Json.arr [
        Json.str "service",
        Json.str "toolName",
        Json.str "description",
        Json.str "useCase"])])]),
  ("workflows", [
    ("description", Json.str "Complex workflows using Mastra patterns that orchestrate multiple tools to complete business processes. Should represent multi-step operations that provide significant user value and follow Deco workflow conventions with proper step separation and control flow."),
    ("type", Json.str "array"),
    ("items", Json.obj [
      ("type", Json.str "object"),
      ("properties", Json.obj [
        ("title", Json.obj [
          ("type", Json.str "string"),
          ("description", Json.str "Workflow name that describes the complete process following Deco conventions. Examples: \x27COMPLETE_USER_ONBOARDING\x27, \x27PROCESS_DATA_PIPELINE\x27, \x27AUTOMATED_CONTENT_GENERATION\x27")]),
        ("description", Json.obj [
          ("type", Json.str "string"),
          ("description", Json.str "Detailed explanation of what the workflow accomplishes, the business process it automates, and how it uses Mastra control flow operators (.then, .map, .branch, .parallel, .dountil). Include the sequence of steps and data transformations.")]),
        ("trigger", Json.obj [
          ("type", Json.str "string"),
          ("description", Json.str "What event or condition starts this workflow. Examples: \x27User creates new account\x27, \x27File uploaded to storage\x27, \x27Scheduled cron job (daily at 9 AM)\x27, \x27Webhook received from external service\x27, \x27Manual trigger from UI button\x27")])]),
      ("required", Json.arr [
        Json.str "title",
        Json.str "description",
        Json.str "trigger"])])]),
  ("views", [
    ("description", Json.str "Frontend routes using TanStack Router with SVG layout examples that show the user interface structure and navigation flow. Should cover all main user journeys, use Tailwind CSS styling, and integrate with TanStack Query hooks for data fetching."),
    ("type", Json.str "array"),
    ("items", Json.obj [
      ("type", Json.str "object"),
      ("properties", Json.obj [
        ("title", Json.obj [
          ("type", Json.str "string"),
          ("description", Json.str "Page/view name that describes its purpose following React conventions. Examples: \x27Dashboard Home\x27, \x27Task Management\x27, \x27User Profile Settings\x27, \x27Integration Setup\x27")]),
        ("pathTemplate", Json.obj [
          ("type", Json.str "string"),
          ("description", Json.str "TanStack Router path template following conventions. Examples: \x27/\x27 (home), \x27/dashboard\x27, \x27/tasks/:taskId\x27, \x27/users/:userId/profile\x27, \x27/settings/integrations\x27")]),
        ("description", Json.obj [
          ("type", Json.str "string"),
          ("description", Json.str "Detailed explanation of what this view shows, what users can do on it, how it fits into the user journey, what TanStack Query hooks it uses for data fetching, and what components it renders. Include interaction patterns and state management details.")]),
        ("layoutExample", Json.obj [
          ("type", Json.str "string"),
          ("description", Json.str "SVG code showing the visual layout and key UI components of this view using modern design patterns. Include navigation, content areas, interactive elements, loading states, and responsive design considerations. Use clean, minimal design with proper spacing and typography.")])]),
      ("required", Json.arr [
        Json.str "title",
        Json.str "pathTemplate",
        Json.str "description",
        Json.str "layoutExample"])])]),
  ("implementationPhases", [
    ("description", Json.str "Implementation phases with realistic timelines that break down the Deco MCP application development process into manageable chunks. Should be ordered by priority and dependencies, considering Deco platform setup, tool development, workflow creation, and frontend implementation."),
    ("type", Json.str "array"),
    ("items", Json.obj [
      ("type", Json.str "object"),
      ("properties", Json.obj [
        ("title", Json.obj [
          ("type", Json.str "string"),
          ("description", Json.str "Phase name that clearly indicates what will be built in the Deco MCP context. Examples: \x27Core MCP Server Setup\x27, \x27Database Schema & Tools\x27, \x27AI Integration & Workflows\x27, \x27Frontend Development\x27, \x27External Integrations\x27, \x27Testing & Deployment\x27")]),
        ("description", Json.obj [
          ("type", Json.str "string"),
          ("description", Json.str "Detailed explanation of what will be accomplished in this phase, why it\x27s important for the overall Deco MCP project, and what Deco platform features will be implemented (tools, workflows, integrations, database, frontend).")]),
        ("duration", Json.obj [
          ("type", Json.str "string"),
          ("description", Json.str "Realistic time estimate for completing this phase considering Deco platform development patterns. Examples: \x271-2 weeks\x27 (basic setup), \x272-3 weeks\x27 (core features), \x273-4 weeks\x27 (complex integrations), \x271-2 months\x27 (full application)")]),
        ("tasks", Json.obj [
          ("type", Json.str "array"),
          ("items", Json.obj [
            ("type", Json.str "string"),
            ("description", Json.str "Specific, actionable tasks that need to be completed in this phase, including Deco-specific tasks like tool creation, workflow setup, schema design, integration configuration")]),
          ("description", Json.str "List of concrete tasks and deliverables for this implementation phase, organized by Deco MCP development workflow")])]),
      ("required", Json.arr [
        Json.str "title",
        Json.str "description",
        Json.str "duration",
        Json.str "tasks"])])]),
  ("successMetrics", [
    ("description", Json.str "Measurable success criteria for the Deco MCP application that define what success looks like. Should include both technical metrics (performance, reliability, scalability) and business metrics (user engagement, adoption, efficiency gains). Consider Deco platform-specific metrics like tool usage, workflow execution, and integration performance."),
    ("type", Json.str "array"),
    ("items", Json.obj [
      ("type", Json.str "string"),
      ("description", Json.str "Specific, measurable metric that can be tracked to determine Deco MCP application success. Examples: \x27Tool execution time under 2 seconds\x27, \x27Workflow success rate above 95%\x27, \x27User retention rate above 80%\x27, \x27Database query performance under 100ms\x27, \x27AI generation accuracy above 90%\x27, \x27Integration uptime above 99.9%\x27")])])]

/-- `getSchemaForSection` from `server/defaultSchemas.ts`: registry lookup with
optional runtime override, merged by object spread
(`return overrides ? { ...baseSchema, ...overrides } : baseSchema`). -/
def getSchemaForSection (sectionKey : String) (overrides : Option (List (String × Json))) :
    Except String (List (String × Json)) :=
  match alistLookup defaultSections sectionKey with
  | none => .error ("Unknown section key: " ++ sectionKey)
  | some baseSchema =>
    match overrides with
    | some ov => .ok (jsSpread baseSchema ov)
    | none => .ok baseSchema

/-- The fixed `required` list of `getCompleteExpansionSchema`
(`server/defaultSchemas.ts`). -/
def completeExpansionRequired : List String :=
  ["title", "description", "features", "architecture", "dataModels", "tools",
    "views", "implementationPhases", "successMetrics"]

/-- `getCompleteExpansionSchema` from `server/defaultSchemas.ts`: assembles the
whole-document object schema over a copy of the registry, applying per-section
overrides by object spread when the section exists. -/
def getCompleteExpansionSchema
    (sectionOverrides : Option (List (String × List (String × Json)))) : Json :=
  let sections :=
    match sectionOverrides with
    | none => defaultSections
    | some ovs =>
      ovs.foldl (fun (secs : List (String × List (String × Json)))
          (kv : String × List (String × Json)) =>
        match alistLookup secs kv.1 with
        | some base => alistSet secs kv.1 (jsSpread base kv.2)
        | none => secs) defaultSections
  Json.obj [("type", Json.str "object"),
    ("properties", Json.obj (sections.map (fun p => (p.1, Json.obj p.2)))),
    ("required", Json.arr (completeExpansionRequired.map Json.str))]

/-- The `sectionSchemas` table of `GET_SECTION_SCHEMA`
(`server/tools/export.ts`, `createGetSectionSchemaTool`). -/
def sectionSchemas : List (String × Json) :=
[
  ("title",
    Json.obj [
      ("type", Json.str "string"),
      ("description", Json.str "A clear, compelling title for the software idea. Example: \"Sistema de Pesquisa Eleitoral\"")]),
  ("description",
    Json.obj [
      ("type", Json.str "string"),
      ("description", Json.str "Detailed description of what the software does. Example: \"Uma aplicação para simular comportamento eleitoral através da criação de perfis demográficos e aplicação de questionários com respostas geradas por IA.\"")]),
  ("features",
    Json.obj [
      ("type", Json.str "array"),
      ("items", Json.obj [
        ("type", Json.str "object"),
        ("properties", Json.obj [
          ("title", Json.obj [
            ("type", Json.str "string")]),
          ("description", Json.obj [
            ("type", Json.str "string")])]),
        ("required", Json.arr [
          Json.str "title",
          Json.str "description"])]),
      ("description", Json.str "Main features of the application. Example: [\x7b\"title\": \"Gestão de Eleitores\", \"description\": \"Criar e gerenciar perfis demográficos detalhados\"\x7d]")]),
  ("architecture",
    Json.obj [
      ("type", Json.str "object"),
      ("properties", Json.obj [
        ("files", Json.obj [
          ("type", Json.str "array"),
          ("items", Json.obj [
            ("type", Json.str "object"),
            ("properties", Json.obj [
              ("path", Json.obj [
                ("type", Json.str "string")]),
              ("description", Json.obj [
                ("type", Json.str "string")])]),
            ("required", Json.arr [
              Json.str "path",
              Json.str "description"])])])]),
      ("description", Json.str "Project file structure following Deco MCP template patterns")]),
  ("dataModels",
    Json.obj [
      ("type", Json.str "array"),
      ("items", Json.obj [
        ("type", Json.str "object"),
        ("properties", Json.obj [
          ("title", Json.obj [
            ("type", Json.str "string")]),
          ("schema", Json.obj [
            ("type", Json.str "string")])]),
        ("required", Json.arr [
          Json.str "title",
          Json.str "schema"])]),
      ("description", Json.str "Database entities with Drizzle ORM schemas")]),
  ("tools",
    Json.obj [
      ("type", Json.str "array"),
      ("items", Json.obj [
        ("type", Json.str "object"),
        ("properties", Json.obj [
          ("title", Json.obj [
            ("type", Json.str "string")]),
          ("description", Json.obj [
            ("type", Json.str "string")]),
          ("inputSchema", Json.obj [
            ("type", Json.str "string")]),
          ("outputSchema", Json.obj [
            ("type", Json.str "string")])]),
        ("required", Json.arr [
          Json.str "title",
          Json.str "description",
          Json.str "inputSchema",
          Json.str "outputSchema"])]),
      ("description", Json.str "MCP tools for the application with Zod schemas")]),
  ("views",
    Json.obj [
      ("type", Json.str "array"),
      ("items", Json.obj [
        ("type", Json.str "object"),
        ("properties", Json.obj [
          ("title", Json.obj [
            ("type", Json.str "string")]),
          ("pathTemplate", Json.obj [
            ("type", Json.str "string")]),
          ("description", Json.obj [
            ("type", Json.str "string")]),
          ("layoutExample", Json.obj [
            ("type", Json.str "string")])]),
        ("required", Json.arr [
          Json.str "title",
          Json.str "pathTemplate",
          Json.str "description",
          Json.str "layoutExample"])]),
      ("description", Json.str "Frontend routes with SVG layout examples")]),
  ("implementationPhases",
    Json.obj [
      ("type", Json.str "array"),
      ("items", Json.obj [
        ("type", Json.str "object"),
        ("properties", Json.obj [
          ("title", Json.obj [
            ("type", Json.str "string")]),
          ("description", Json.obj [
            ("type", Json.str "string")]),
          ("duration", Json.obj [
            ("type", Json.str "string")]),
          ("tasks", Json.obj [
            ("type", Json.str "array"),
            ("items", Json.obj [
              ("type", Json.str "string")])])]),
        ("required", Json.arr [
          Json.str "title",
          Json.str "description",
          Json.str "duration",
          Json.str "tasks"])]),
      ("description", Json.str "Implementation phases with realistic timelines")]),
  ("successMetrics",
    Json.obj [
      ("type", Json.str "array"),
      ("items", Json.obj [
        ("type", Json.str "string")]),
      ("description", Json.str "Measurable success criteria for the project")])]

/-- The inline `expansionSchema` of `server/workflows/expansion.ts`. -/
def expansionSchema : Json :=
Json.obj [
  ("type", Json.str "object"),
  ("properties", Json.obj [
    ("title", Json.obj [
      ("type", Json.str "string"),
      ("description", Json.str "A clear, compelling title for the software idea. Example: \"Sistema de Pesquisa Eleitoral\"")]),
    ("description", Json.obj [
      ("type", Json.str "string"),
      ("description", Json.str "Detailed description of what the software does. Example: \"Uma aplicação para simular comportamento eleitoral através da criação de perfis demográficos e aplicação de questionários com respostas geradas por IA.\"")]),
    ("features", Json.obj [
      ("type", Json.str "array"),
      ("items", Json.obj [
        ("type", Json.str "object"),
        ("properties", Json.obj [
          ("title", Json.obj [
            ("type", Json.str "string")]),
          ("description", Json.obj [
            ("type", Json.str "string")])]),
        ("required", Json.arr [
          Json.str "title",
          Json.str "description"])]),
      ("description", Json.str "Main features of the application. Example: [\x7b\"title\": \"Gestão de Eleitores\", \"description\": \"Criar e gerenciar perfis demográficos detalhados\"\x7d]")]),
    ("architecture", Json.obj [
      ("type", Json.str "object"),
      ("properties", Json.obj [
        ("files", Json.obj [
          ("type", Json.str "array"),
          ("items", Json.obj [
            ("type", Json.str "object"),
            ("properties", Json.obj [
              ("path", Json.obj [
                ("type", Json.str "string")]),
              ("description", Json.obj [
                ("type", Json.str "string")])]),
            ("required", Json.arr [
              Json.str "path",
              Json.str "description"])])])]),
      ("description", Json.str "Project file structure following Deco MCP template patterns")]),
    ("dataModels", Json.obj [
      ("type", Json.str "array"),
      ("items", Json.obj [
        ("type", Json.str "object"),
        ("properties", Json.obj [
          ("title", Json.obj [
            ("type", Json.str "string")]),
          ("schema", Json.obj [
            ("type", Json.str "string")])]),
        ("required", Json.arr [
          Json.str "title",
          Json.str "schema"])]),
      ("description", Json.str "Database entities with Drizzle ORM schemas")]),
    ("tools", Json.obj [
      ("type", Json.str "array"),
      ("items", Json.obj [
        ("type", Json.str "object"),
        ("properties", Json.obj [
          ("title", Json.obj [
            ("type", Json.str "string")]),
          ("description", Json.obj [
            ("type", Json.str "string")]),
          ("inputSchema", Json.obj [
            ("type", Json.str "string")]),
          ("outputSchema", Json.obj [
            ("type", Json.str "string")])]),
        ("required", Json.arr [
          Json.str "title",
          Json.str "description",
          Json.str "inputSchema",
          Json.str "outputSchema"])]),
      ("description", Json.str "MCP tools for the application with Zod schemas")]),
    ("views", Json.obj [
      ("type", Json.str "array"),
      ("items", Json.obj [
        ("type", Json.str "object"),
        ("properties", Json.obj [
          ("title", Json.obj [
            ("type", Json.str "string")]),
          ("pathTemplate", Json.obj [
            ("type", Json.str "string")]),
          ("description", Json.obj [
            ("type", Json.str "string")]),
          ("layoutExample", Json.obj [
            ("type", Json.str "string")])]),
        ("required", Json.arr [
          Json.str "title",
          Json.str "pathTemplate",
          Json.str "description",
          Json.str "layoutExample"])]),
      ("description", Json.str "Frontend routes with SVG layout examples")]),
    ("implementationPhases", Json.obj [
      ("type", Json.str "array"),
      ("items", Json.obj [
        ("type", Json.str "object"),
        ("properties", Json.obj [
          ("title", Json.obj [
            ("type", Json.str "string")]),
          ("description", Json.obj [
            ("type", Json.str "string")]),
          ("duration", Json.obj [
            ("type", Json.str "string")]),
          ("tasks", Json.obj [
            ("type", Json.str "array"),
            ("items", Json.obj [
              ("type", Json.str "string")])])]),
        ("required", Json.arr [
          Json.str "title",
          Json.str "description",
          Json.str "duration",
          Json.str "tasks"])]),
      ("description", Json.str "Implementation phases with realistic timelines")]),
    ("successMetrics", Json.obj [
      ("type", Json.str "array"),
      ("items", Json.obj [
        ("type", Json.str "string")]),
      ("description", Json.str "Measurable success criteria for the project")])]),
  ("required", Json.arr [
    Json.str "title",
    Json.str "description",
    Json.str "features",
    Json.str "architecture",
    Json.str "dataModels",
    Json.str "tools",
    Json.str "views",
    Json.str "implementationPhases",
    Json.str "successMetrics"])]

/-- JS property access `j.k` on a JSON value. -/
def Json.getField : Json → String → Option Json
  | .obj l, k => alistLookup l k
  | _, _ => none

/-- JS truthiness of a JSON value. -/
def Json.jsTruthy : Json → Bool
  | .null => false
  | .bool b => b
  | .num q => q != 0
  | .str s => s != ""
  | .arr _ => true
  | .obj _ => true

/-- JS template-literal coercion for the primitive cases; the server only
interpolates values that are already strings (schema `description` fields). -/
def Json.interpolate : Json → String
  | .str s => s
  | .null => "null"
  | .bool true => "true"
  | .bool false => "false"
  | .num q => toString q
  | .arr _ => ""
  | .obj _ => "[object Object]"

/-- A row of the `ideas` table (`server/schema.ts`): `expanded_data` is a
nullable JSON column holding the whole Document as one object. -/
structure IdeaRow where
  id : String
  originalPrompt : String
  expandedData : Option (List (String × Json))
  createdAt : Nat
  updatedAt : Nat

/-- One criterion result as required by `evaluationSchema`
(`server/tools/evaluation.ts`): a score and feedback text. -/
structure CriterionResult where
  score : ℚ
  feedback : String
deriving DecidableEq

/-- A schema-conforming AI evaluation object: exactly the six keys required by
`evaluationSchema`. -/
structure EvaluationObject where
  ambiguityAvoidance : CriterionResult
  interestLevel : CriterionResult
  marketPotential2025 : CriterionResult
  technicalFeasibility : CriterionResult
  innovationLevel : CriterionResult
  userValueProposition : CriterionResult
deriving DecidableEq

/-- A row of the `evaluations` table (`server/schema.ts`). -/
structure EvaluationRow where
  id : String
  ideaId : String
  criteria : EvaluationObject
  overallScore : ℚ
  createdAt : Nat
deriving DecidableEq

/-- The relational store: rows in insertion order (the SQLite scan order for
these queries, none of which specifies ORDER BY). -/
structure DB where
  ideas : List IdeaRow
  evaluations : List EvaluationRow

/-- `GET_IDEA` (`server/tools/ideas.ts`):
`select().from(ideas).where(eq(ideas.id, id)).limit(1)`. -/
def getIdea (db : DB) (id : String) : Option IdeaRow :=
  db.ideas.find? (fun r => r.id == id)

/-- `GET_EVALUATION` (`server/tools/evaluation.ts`, `createGetEvaluationTool`):
`select().from(evaluations).where(eq(evaluations.ideaId, ideaId)).limit(1)` —
the first matching row in table order; the query has no ORDER BY. -/
def getEvaluation (db : DB) (ideaId : String) : Option EvaluationRow :=
  (db.evaluations.filter (fun e => e.ideaId == ideaId)).head?

/-- Failures thrown by the embedded tools (the source throws `Error` values
with fixed messages and rethrows them behind a generic per-tool message). -/
inductive ToolError where
  | ideaNotFound
  | unknownSectionKey
  | aiNoObject
deriving DecidableEq

/-- `UPDATE_SECTION_DATA` (`server/tools/export.ts`,
`createUpdateSectionDataTool`): load the idea, default a null document to an
empty object (`existingIdea[0].expandedData || {}`), overwrite the one
section key (`{ ...currentData, [context.sectionKey]: context.newData }`),
store the result with a fresh `updatedAt`, and return the updated row. -/
def updateSectionData (db : DB) (ideaId sectionKey : String) (newData : Json)
    (now : Nat) : Except ToolError (DB × IdeaRow) :=
  match db.ideas.find? (fun r => r.id == ideaId) with
  | none => .error .ideaNotFound
  | some row =>
    let currentData := row.expandedData.getD []
    let updatedData := alistSet currentData sectionKey newData
    let updatedRow := { row with expandedData := some updatedData, updatedAt := now }
    .ok ({ db with ideas := db.ideas.map (fun r => if r.id == ideaId then updatedRow else r) }, updatedRow)

/-- The structured-generation request assembled by `RE_EXPAND_SECTION`: the
prompt string is built from the first four fields, and `schema` is the value
passed as the `schema` argument of `AI_GENERATE_OBJECT`. -/
structure ReExpandGenCall where
  sectionKey : String
  originalPrompt : String
  currentData : Option (List (String × Json))
  promptDescription : String
  schema : Json

/-- A structured-generation response as consumed by the tools: the `object`
field is optional. -/
structure GenResult where
  object : Option Json

/-- Input of `RE_EXPAND_SECTION`. -/
structure ReExpandInput where
  ideaId : String
  sectionKey : String
  customPrompt : Option String
  originalPrompt : String

/-- Output of `RE_EXPAND_SECTION` on success. -/
structure ReExpandOutput where
  sectionKey : String
  newData : Json
  previousData : Option Json

/-- First phase of `RE_EXPAND_SECTION` (`server/tools/export.ts`,
`createReExpandSectionTool`): load the idea, read the previous section value
(`currentData?.[context.sectionKey]`), resolve the section schema via
`GET_SECTION_SCHEMA`, let a supplied `customPrompt` replace the schema
description in the prompt, and assemble the generation request. -/
def reExpandPrepare (db : DB) (i : ReExpandInput) :
    Except ToolError (ReExpandGenCall × Option Json) :=
  match db.ideas.find? (fun r => r.id == i.ideaId) with
  | none => .error .ideaNotFound
  | some row =>
    let currentData := row.expandedData
    let previousSectionData := currentData.bind (fun d => alistLookup d i.sectionKey)
    match alistLookup sectionSchemas i.sectionKey with
    | none => .error .unknownSectionKey
    | some sectionSchema =>
      let promptDescription :=
        match i.customPrompt with
        | some custom => custom
        | none =>
          match sectionSchema.getField "description" with
          | some d => d.interpolate
          | none => "undefined"
      .ok ({ sectionKey := i.sectionKey, originalPrompt := i.originalPrompt,
             currentData := currentData, promptDescription := promptDescription,
             schema := sectionSchema }, previousSectionData)

/-- `RE_EXPAND_SECTION`: prepare the request, invoke the generation oracle,
fail when no object comes back (`if (!result.object) throw`), and otherwise
return the whole returned object as `newData` together with `previousData` —
the tool runs no database update, so the store is returned as read. -/
def reExpandSection (db : DB) (i : ReExpandInput) (ai : ReExpandGenCall → GenResult) :
    Except ToolError (DB × ReExpandOutput) :=
  match reExpandPrepare db i with
  | .error e => .error e
  | .ok (call, previousData) =>
    match (ai call).object with
    | none => .error .aiNoObject
    | some newSectionData =>
      .ok (db, { sectionKey := i.sectionKey, newData := newSectionData,
                 previousData := previousData })

/-- `EVALUATE_IDEA` (`server/tools/evaluation.ts`, `createEvaluateIdeaTool`):
on a schema-conforming response, recompute the overall score as
`scores.reduce((sum, score) => sum + score, 0) / scores.length` over the six
criterion scores and insert a fresh `evaluations` row; the response is the
only source of scores. -/
def evaluateIdea (db : DB) (ideaId : String) (aiResult : Option EvaluationObject)
    (newId : String) (now : Nat) : Except ToolError (DB × EvaluationRow) :=
  match aiResult with
  | none => .error .aiNoObject
  | some o =>
    let scores := [o.ambiguityAvoidance.score, o.interestLevel.score,
      o.marketPotential2025.score, o.technicalFeasibility.score,
      o.innovationLevel.score, o.userValueProposition.score]
    let overallScore := scores.foldl (fun sum score => sum + score) 0 / (scores.length : ℚ)
    let row : EvaluationRow :=
      { id := newId, ideaId := ideaId, criteria := o,
        overallScore := overallScore, createdAt := now }
    .ok ({ db with evaluations := db.evaluations ++ [row] }, row)

/-- Result handling at the `AI_GENERATE_OBJECT` call site of
`INLINE_EXPAND_IDEA` in `server/workflows/index.ts`: absence of
`result.object` is converted into a thrown error. -/
def inlineExpandIdeaResult (result : GenResult) : Except ToolError Json :=
  match result.object with
  | none => .error .aiNoObject
  | some o => .ok o

/-- Result handling at the `AI_GENERATE_OBJECT` call site of
`INLINE_SUGGEST_EXTERNAL_TOOLS` in `server/workflows/index.ts`: absence of
`result.object` is a thrown error; otherwise
`(result.object.toolsFromOtherApps as any[]) || []`. -/
def suggestExternalToolsResult (result : GenResult) : Except ToolError Json :=
  match result.object with
  | none => .error .aiNoObject
  | some o =>
    .ok (match o.getField "toolsFromOtherApps" with
      | some v => if v.jsTruthy then v else Json.arr []
      | none => Json.arr [])

/-- The `DEBUG` flag of `server/workflows/expansion.ts`. -/
def expansionDebug : Bool := true

/-- The mock document substituted for the AI response by
`server/workflows/expansion.ts` when `DEBUG` is on. -/
def mockExpandedData (originalPrompt : String) : Json :=
Json.obj [
  ("title", Json.str "Mock Expanded Idea"),
  ("description", Json.str ("This is a mock expanded idea for debugging purposes. Original prompt: " ++ originalPrompt)),
  ("features", Json.arr [
    Json.obj [
      ("title", Json.str "Mock Feature 1"),
      ("description", Json.str "This is a mock feature for testing")],
    Json.obj [
      ("title", Json.str "Mock Feature 2"),
      ("description", Json.str "Another mock feature for testing")]]),
  ("architecture", Json.obj [
    ("files", Json.arr [
      Json.obj [
        ("path", Json.str "src/mock/example.ts"),
        ("description", Json.str "Mock architecture file")]])]),
  ("dataModels", Json.arr [
    Json.obj [
      ("title", Json.str "Mock Model"),
      ("schema", Json.str "// Mock schema code here")]]),
  ("tools", Json.arr [
    Json.obj [
      ("title", Json.str "Mock Tool"),
      ("description", Json.str "Mock tool description"),
      ("inputSchema", Json.str "z.object(\x7b mockInput: z.string() \x7d)"),
      ("outputSchema", Json.str "z.object(\x7b mockOutput: z.boolean() \x7d)")]]),
  ("views", Json.arr [
    Json.obj [
      ("title", Json.str "Mock View"),
      ("pathTemplate", Json.str "/mock"),
      ("description", Json.str "Mock view description"),
      ("layoutExample", Json.str "<svg>Mock SVG</svg>")]]),
  ("implementationPhases", Json.arr [
    Json.obj [
      ("title", Json.str "Mock Phase"),
      ("description", Json.str "Mock implementation phase"),
      ("duration", Json.str "1 week"),
      ("tasks", Json.arr [
        Json.str "Mock task 1",
        Json.str "Mock task 2"])]]),
  ("successMetrics", Json.arr [
    Json.str "Mock metric 1",
    Json.str "Mock metric 2"])]

/-- `INLINE_EXPAND_IDEA` in `server/workflows/expansion.ts`: in debug mode the
mock document stands in; otherwise the AI is invoked and absence of
`result.object` is converted into a thrown error. -/
def inlineExpandIdeaExpansion (debug : Bool) (originalPrompt : String)
    (result : GenResult) : Except ToolError Json :=
  if debug then .ok (mockExpandedData originalPrompt)
  else
    match result.object with
    | none => .error .aiNoObject
    | some o => .ok o

/-- A raw response of the platform `AI_GENERATE_OBJECT` boundary
(output schema of `server/tools/ai.ts`): `object` is optional. -/
structure RawGenResult where
  object : Option Json
  promptTokens : ℚ
  completionTokens : ℚ
  totalTokens : ℚ
  transactionId : String
  finishReason : Option String

/-- A request to the platform `AI_GENERATE_OBJECT` boundary (input schema of
`server/tools/ai.ts`; messages abbreviated to (role, content) pairs). -/
structure RawGenRequest where
  messages : List (String × String)
  schema : Json
  model : Option String
  maxTokens : Option ℚ
  temperature : Option ℚ

/-- The `AI_GENERATE_OBJECT` proxy tool (`server/tools/ai.ts`,
`createAIGenerateObjectTool`): it forwards the request to the platform and
returns the raw result unchanged — no check on `object` is performed. -/
def aiGenerateObjectProxy (upstream : RawGenRequest → RawGenResult)
    (ctx : RawGenRequest) : RawGenResult :=
  upstream ctx


/-! ### Helper lemmas shared by the claim theorems -/

theorem find_map_update (l : List IdeaRow) (ideaId : String) (row upd : IdeaRow)
    (h : l.find? (fun r => r.id == ideaId) = some row) (hid : upd.id = ideaId) :
    (l.map (fun r => if r.id == ideaId then upd else r)).find? (fun r => r.id == ideaId)
      = some upd := by
  induction l with
  | nil => simp [List.find?] at h
  | cons r t ih =>
    cases hr : r.id == ideaId
    · rw [List.find?_cons_of_neg _ (by simp [hr])] at h
      rw [List.map_cons, if_neg (by simp [hr]), List.find?_cons_of_neg _ (by simp [hr])]
      exact ih h
    · rw [List.map_cons, if_pos hr]
      exact List.find?_cons_of_pos _ (by simp [hid])

theorem filter_head_first (l : List EvaluationRow) (ideaId : String) (e : EvaluationRow)
    (h : (l.filter (fun x => x.ideaId == ideaId)).head? = some e) :
    e.ideaId = ideaId ∧
    ∃ pre post, l = pre ++ e :: post ∧ ∀ x ∈ pre, x.ideaId ≠ ideaId := by
  induction l with
  | nil => simp at h
  | cons x t ih =>
    cases hx : x.ideaId == ideaId
    · rw [List.filter_cons_of_neg (by simp [hx])] at h
      obtain ⟨he, pre, post, hsplit, hpre⟩ := ih h
      refine ⟨he, x :: pre, post, by rw [hsplit]; rfl, ?_⟩
      intro y hy
      rcases List.mem_cons.mp hy with hy | hy
      · rw [hy]
        simpa using hx
      · exact hpre y hy
    · rw [List.filter_cons_of_pos (by simp [hx])] at h
      rw [List.head?_cons, Option.some_inj] at h
      subst h
      exact ⟨by simpa using hx, [], t, rfl, by simp⟩

theorem reExpandPrepare_spec (db : DB) (i : ReExpandInput) (call : ReExpandGenCall)
    (prev : Option Json) (h : reExpandPrepare db i = .ok (call, prev)) :
    prev = (getIdea db i.ideaId).bind
      (fun r => r.expandedData.bind (fun d => alistLookup d i.sectionKey)) ∧
    alistLookup sectionSchemas i.sectionKey = some call.schema := by
  unfold reExpandPrepare at h
  cases hfind : db.ideas.find? (fun r => r.id == i.ideaId) with
  | none => rw [hfind] at h; cases h
  | some row =>
    rw [hfind] at h
    cases hlook : alistLookup sectionSchemas i.sectionKey with
    | none => rw [hlook] at h; cases h
    | some s =>
      rw [hlook] at h
      rw [Except.ok.injEq, Prod.mk.injEq] at h
      obtain ⟨hcall, hprev⟩ := h
      constructor
      · rw [← hprev]
        show _ = (getIdea db i.ideaId).bind _
        rw [show getIdea db i.ideaId = some row from hfind]
        rfl
      · rw [← hcall]

/-! ### C4 — schema override composition is a shallow key-by-key merge -/

/-- C4: for every base descriptor and partial override, the merged descriptor
carries the override value at each top-level key present in the override and
the base value at every other top-level key; the empty override returns a
descriptor equal to the base; overriding only `description` keeps the base
`type`; and `getSchemaForSection` applies exactly this spread to the registry
entry. -/
theorem schema_override_shallow_merge :
    (∀ (base ov : List (String × Json)), (ov.map Prod.fst).Nodup →
      (∀ k v, alistLookup ov k = some v → alistLookup (jsSpread base ov) k = some v) ∧
      (∀ k, alistLookup ov k = none → alistLookup (jsSpread base ov) k = alistLookup base k)) ∧
    (∀ base : List (String × Json), jsSpread base [] = base) ∧
    jsSpread [("description", Json.str "A"), ("type", Json.str "string")]
        [("description", Json.str "B")]
      = [("description", Json.str "B"), ("type", Json.str "string")] ∧
    (∀ (sectionKey : String) (base ov : List (String × Json)),
      alistLookup defaultSections sectionKey = some base →
      getSchemaForSection sectionKey (some ov) = .ok (jsSpread base ov) ∧
      getSchemaForSection sectionKey none = .ok base) := by
  refine ⟨?_, jsSpread_nil, rfl, ?_⟩
  · intro base ov hnd
    constructor
    · intro k v hkv
      have h' := alistLookup_spread base ov k hnd
      rw [hkv] at h'
      exact h'
    · intro k hk
      have h' := alistLookup_spread base ov k hnd
      rw [hk] at h'
      exact h'
  · intro sectionKey base ov h
    constructor <;> simp [getSchemaForSection, h]

/-- Witness for C4 at concrete inputs: overriding `description` on the
`title` registry entry keeps its `type` and replaces its `description`. -/
theorem schema_override_shallow_merge_witness :
    (alistLookup (jsSpread [("description", Json.str "A"), ("type", Json.str "string")]
        [("description", Json.str "B")]) "type"
      = alistLookup [("description", Json.str "A"), ("type", Json.str "string")] "type") ∧
    (getSchemaForSection "successMetrics" (some [("description", Json.str "B")])
        = .ok (jsSpread [
            ("description", Json.str "Measurable success criteria for the Deco MCP application that define what success looks like. Should include both technical metrics (performance, reliability, scalability) and business metrics (user engagement, adoption, efficiency gains). Consider Deco platform-specific metrics like tool usage, workflow execution, and integration performance."),
            ("type", Json.str "array"),
            ("items", Json.obj [
              ("type", Json.str "string"),
              ("description", Json.str "Specific, measurable metric that can be tracked to determine Deco MCP application success. Examples: \x27Tool execution time under 2 seconds\x27, \x27Workflow success rate above 95%\x27, \x27User retention rate above 80%\x27, \x27Database query performance under 100ms\x27, \x27AI generation accuracy above 90%\x27, \x27Integration uptime above 99.9%\x27")])]
            [("description", Json.str "B")]) ∧
      getSchemaForSection "successMetrics" none = .ok [
            ("description", Json.str "Measurable success criteria for the Deco MCP application that define what success looks like. Should include both technical metrics (performance, reliability, scalability) and business metrics (user engagement, adoption, efficiency gains). Consider Deco platform-specific metrics like tool usage, workflow execution, and integration performance."),
            ("type", Json.str "array"),
            ("items", Json.obj [
              ("type", Json.str "string"),
              ("description", Json.str "Specific, measurable metric that can be tracked to determine Deco MCP application success. Examples: \x27Tool execution time under 2 seconds\x27, \x27Workflow success rate above 95%\x27, \x27User retention rate above 80%\x27, \x27Database query performance under 100ms\x27, \x27AI generation accuracy above 90%\x27, \x27Integration uptime above 99.9%\x27")])]) :=
  ⟨(schema_override_shallow_merge.1
      [("description", Json.str "A"), ("type", Json.str "string")]
      [("description", Json.str "B")] (by simp)).2 "type" rfl,
    schema_override_shallow_merge.2.2.2 "successMetrics" _ [("description", Json.str "B")] rfl⟩

/-! ### C5 — the whole-document generation schema and its required keys -/

/-- Key list of a JSON object value. -/
def Json.objKeys : Json → List String
  | .obj l => l.map Prod.fst
  | _ => []

/-- C5: the whole-document schema assembled by `getCompleteExpansionSchema` has
as properties exactly the registered sections and as `required` exactly the
nine keys, with `workflows` and `toolsFromOtherApps` left out of `required`;
the inline `expansionSchema` of the expansion workflow carries the same
`required` list. -/
theorem complete_schema_required_nine :
    ((getCompleteExpansionSchema none).getField "properties").map Json.objKeys
      = some (defaultSections.map Prod.fst) ∧
    defaultSections.map Prod.fst = ["title", "description", "features", "architecture",
      "dataModels", "tools", "toolsFromOtherApps", "workflows", "views",
      "implementationPhases", "successMetrics"] ∧
    completeExpansionRequired = ["title", "description", "features", "architecture",
      "dataModels", "tools", "views", "implementationPhases", "successMetrics"] ∧
    (getCompleteExpansionSchema none).getField "required"
      = some (Json.arr (completeExpansionRequired.map Json.str)) ∧
    "workflows" ∉ completeExpansionRequired ∧
    "toolsFromOtherApps" ∉ completeExpansionRequired ∧
    expansionSchema.getField "required"
      = some (Json.arr (completeExpansionRequired.map Json.str)) := by
  refine ⟨rfl, rfl, rfl, rfl, by decide, by decide, rfl⟩

/-! ### C1 — section regeneration preview is read-only -/

/-- C1: a successful `RE_EXPAND_SECTION` call returns the store exactly as it
found it, pairs the newly generated value with the previous section value
(read through `GET_IDEA` composition), and a subsequent get still answers from
the unchanged store. -/
theorem re_expand_preview_readonly (db : DB) (i : ReExpandInput)
    (ai : ReExpandGenCall → GenResult) (db' : DB) (out : ReExpandOutput)
    (h : reExpandSection db i ai = .ok (db', out)) :
    db' = db ∧
    out.sectionKey = i.sectionKey ∧
    out.previousData = (getIdea db i.ideaId).bind
      (fun r => r.expandedData.bind (fun d => alistLookup d i.sectionKey)) ∧
    (∃ call, reExpandPrepare db i = .ok (call, out.previousData) ∧
      (ai call).object = some out.newData) ∧
    getIdea db' i.ideaId = getIdea db i.ideaId := by
  cases hp : reExpandPrepare db i with
  | error e =>
    rw [show reExpandSection db i ai = .error e by simp [reExpandSection, hp]] at h
    cases h
  | ok cp =>
    obtain ⟨call, prev⟩ := cp
    cases hobj : (ai call).object with
    | none =>
      rw [show reExpandSection db i ai = .error .aiNoObject by
        simp [reExpandSection, hp, hobj]] at h
      cases h
    | some v =>
      rw [show reExpandSection db i ai
          = .ok (db, ⟨i.sectionKey, v, prev⟩) by simp [reExpandSection, hp, hobj]] at h
      rw [Except.ok.injEq, Prod.mk.injEq] at h
      obtain ⟨hdb, hout⟩ := h
      subst hdb
      have hprev := (reExpandPrepare_spec db i call prev hp).1
      subst hout
      exact ⟨rfl, rfl, hprev, ⟨call, rfl, hobj⟩, rfl⟩

/-- Store used by the C1 witness: one idea with a stored document. -/
def previewDb : DB :=
  { ideas := [{ id := "idea-1", originalPrompt := "Build a workshop booking tool",
                expandedData := some [("title", Json.str "Old Title"),
                  ("features", Json.arr [Json.obj [("title", Json.str "Old feature"),
                    ("description", Json.str "old")]])],
                createdAt := 0, updatedAt := 0 }],
    evaluations := [] }

/-- Input used by the C1 witness. -/
def previewInput : ReExpandInput :=
  { ideaId := "idea-1", sectionKey := "features",
    customPrompt := some "only 2 features, focused on scheduling",
    originalPrompt := "Build a workshop booking tool" }

/-- Generated value returned by the C1 witness oracle. -/
def previewNewData : Json :=
  Json.arr [Json.obj [("title", Json.str "Scheduling"),
    ("description", Json.str "new")]]

/-- Witness for C1 at a concrete store, input and oracle. -/
theorem re_expand_preview_readonly_witness :
    previewDb = previewDb ∧
    (ReExpandOutput.mk "features" previewNewData
        (some (Json.arr [Json.obj [("title", Json.str "Old feature"),
          ("description", Json.str "old")]]))).sectionKey = previewInput.sectionKey ∧
    (ReExpandOutput.mk "features" previewNewData
        (some (Json.arr [Json.obj [("title", Json.str "Old feature"),
          ("description", Json.str "old")]]))).previousData
      = (getIdea previewDb previewInput.ideaId).bind
        (fun r => r.expandedData.bind (fun d => alistLookup d previewInput.sectionKey)) ∧
    (∃ call, reExpandPrepare previewDb previewInput
        = .ok (call, (ReExpandOutput.mk "features" previewNewData
            (some (Json.arr [Json.obj [("title", Json.str "Old feature"),
              ("description", Json.str "old")]]))).previousData) ∧
      ((fun _ => GenResult.mk (some previewNewData)) call).object
        = some (ReExpandOutput.mk "features" previewNewData
            (some (Json.arr [Json.obj [("title", Json.str "Old feature"),
              ("description", Json.str "old")]]))).newData) ∧
    getIdea previewDb previewInput.ideaId = getIdea previewDb previewInput.ideaId :=
  re_expand_preview_readonly previewDb previewInput
    (fun _ => GenResult.mk (some previewNewData)) previewDb
    (ReExpandOutput.mk "features" previewNewData
      (some (Json.arr [Json.obj [("title", Json.str "Old feature"),
        ("description", Json.str "old")]])))
    (by rfl)

/-! ### C2 — apply merges at exactly one key and stamps updatedAt -/

/-- C2: `UPDATE_SECTION_DATA` on an existing idea succeeds, stores the supplied
value at exactly the given section key, leaves every other key of the stored
document unchanged, sets the row updatedAt to the write time, and a subsequent
get returns the updated row. -/
theorem update_section_merges (db : DB) (ideaId k : String) (v : Json) (now : Nat)
    (row : IdeaRow) (h : db.ideas.find? (fun r => r.id == ideaId) = some row) :
    ∃ db' row', updateSectionData db ideaId k v now = .ok (db', row') ∧
      alistLookup (row'.expandedData.getD []) k = some v ∧
      (∀ k', k' ≠ k → alistLookup (row'.expandedData.getD []) k'
        = alistLookup (row.expandedData.getD []) k') ∧
      row'.updatedAt = now ∧
      getIdea db' ideaId = some row' := by
  have hid : row.id = ideaId := by
    have := List.find?_some h
    simpa using this
  refine ⟨{ db with ideas := db.ideas.map (fun r => if r.id == ideaId
      then { row with expandedData := some (alistSet (row.expandedData.getD []) k v),
                      updatedAt := now } else r) },
    { row with expandedData := some (alistSet (row.expandedData.getD []) k v),
                updatedAt := now }, ?_, ?_, ?_, rfl, ?_⟩
  · simp [updateSectionData, h]
  · simpa using alistLookup_set_self (row.expandedData.getD []) k v
  · intro k' hk'
    simpa using alistLookup_set_ne (row.expandedData.getD []) k k' v hk'
  · exact find_map_update db.ideas ideaId row _ h (by simpa using hid)

/-- Store used by the C2 witness. -/
def applyDb : DB :=
  { ideas := [{ id := "idea-1", originalPrompt := "p",
                expandedData := some [("title", Json.str "T"), ("features", Json.str "F")],
                createdAt := 0, updatedAt := 0 }],
    evaluations := [] }

/-- Witness for C2 at a concrete store and section value. -/
theorem update_section_merges_witness :
    ∃ db' row', updateSectionData applyDb "idea-1" "features" (Json.str "New") 42
        = .ok (db', row') ∧
      alistLookup (row'.expandedData.getD []) "features" = some (Json.str "New") ∧
      (∀ k', k' ≠ "features" → alistLookup (row'.expandedData.getD []) k'
        = alistLookup (((applyDb.ideas.get ⟨0, by simp [applyDb]⟩).expandedData).getD []) k') ∧
      row'.updatedAt = 42 ∧
      getIdea db' "idea-1" = some row' :=
  update_section_merges applyDb "idea-1" "features" (Json.str "New") 42
    ((applyDb.ideas.get ⟨0, by simp [applyDb]⟩)) (by rfl)

/-! ### C8 — applying the same section value twice equals applying it once -/

/-- C8: two consecutive `UPDATE_SECTION_DATA` calls with the same idea, key and
value leave the stored document mapping exactly as one call does (the merge is
a pure overwrite of one key). -/
theorem update_section_idempotent (db : DB) (ideaId k : String) (v : Json)
    (n1 n2 : Nat) (db1 : DB) (r1 : IdeaRow) (db2 : DB) (r2 : IdeaRow)
    (h1 : updateSectionData db ideaId k v n1 = .ok (db1, r1))
    (h2 : updateSectionData db1 ideaId k v n2 = .ok (db2, r2)) :
    r2.expandedData = r1.expandedData ∧
    (getIdea db2 ideaId).map (fun r => r.expandedData)
      = (getIdea db1 ideaId).map (fun r => r.expandedData) := by
  cases hf : db.ideas.find? (fun r => r.id == ideaId) with
  | none =>
    rw [show updateSectionData db ideaId k v n1 = .error .ideaNotFound by
      simp [updateSectionData, hf]] at h1
    cases h1
  | some row =>
    have hid : row.id = ideaId := by
      have := List.find?_some hf
      simpa using this
    rw [show updateSectionData db ideaId k v n1
        = .ok ({ db with ideas := db.ideas.map (fun r => if r.id == ideaId
            then { row with expandedData := some (alistSet (row.expandedData.getD []) k v),
                            updatedAt := n1 } else r) },
          { row with expandedData := some (alistSet (row.expandedData.getD []) k v),
                      updatedAt := n1 }) from by simp [updateSectionData, hf]] at h1
    rw [Except.ok.injEq, Prod.mk.injEq] at h1
    obtain ⟨hdb1, hr1⟩ := h1
    have hfind1 : db1.ideas.find? (fun r => r.id == ideaId) = some r1 := by
      rw [← hdb1, ← hr1]
      exact find_map_update db.ideas ideaId row _ hf (by simpa using hid)
    have hr1doc : r1.expandedData = some (alistSet (row.expandedData.getD []) k v) := by
      rw [← hr1]
    rw [show updateSectionData db1 ideaId k v n2
        = .ok ({ db1 with ideas := db1.ideas.map (fun r => if r.id == ideaId
            then { r1 with expandedData := some (alistSet (r1.expandedData.getD []) k v),
                            updatedAt := n2 } else r) },
          { r1 with expandedData := some (alistSet (r1.expandedData.getD []) k v),
                    updatedAt := n2 }) from by simp [updateSectionData, hfind1]] at h2
    rw [Except.ok.injEq, Prod.mk.injEq] at h2
    obtain ⟨hdb2, hr2⟩ := h2
    have hdoc2 : r2.expandedData = r1.expandedData := by
      rw [← hr2]
      show some (alistSet (r1.expandedData.getD []) k v) = r1.expandedData
      rw [hr1doc]
      show some (alistSet (alistSet (row.expandedData.getD []) k v) k v) = _
      rw [alistSet_idem]
    have hid1 : r1.id = ideaId := by
      rw [← hr1]
      simpa using hid
    have hfind2 : db2.ideas.find? (fun r => r.id == ideaId) = some r2 := by
      rw [← hdb2, ← hr2]
      exact find_map_update db1.ideas ideaId r1 _ hfind1 (by simpa using hid1)
    refine ⟨hdoc2, ?_⟩
    show (db2.ideas.find? _).map _ = (db1.ideas.find? _).map _
    rw [hfind1, hfind2]
    simpa using hdoc2

/-- Store used by the C8 witness: the idea starts with no document. -/
def idemDb : DB :=
  { ideas := [{ id := "idea-1", originalPrompt := "p", expandedData := none,
                createdAt := 0, updatedAt := 0 }],
    evaluations := [] }

/-- The store after the first apply of the C8 witness. -/
def idemDb1 : DB :=
  { ideas := [{ id := "idea-1", originalPrompt := "p",
                expandedData := some [("title", Json.str "X")], createdAt := 0, updatedAt := 1 }],
    evaluations := [] }

/-- The store after the second apply of the C8 witness. -/
def idemDb2 : DB :=
  { ideas := [{ id := "idea-1", originalPrompt := "p",
                expandedData := some [("title", Json.str "X")], createdAt := 0, updatedAt := 2 }],
    evaluations := [] }

/-- Witness for C8: applying `title := "X"` twice stores the same document. -/
theorem update_section_idempotent_witness :
    (idemDb2.ideas.get ⟨0, by simp [idemDb2]⟩).expandedData
      = (idemDb1.ideas.get ⟨0, by simp [idemDb1]⟩).expandedData ∧
    (getIdea idemDb2 "idea-1").map (fun r => r.expandedData)
      = (getIdea idemDb1 "idea-1").map (fun r => r.expandedData) :=
  update_section_idempotent idemDb "idea-1" "title" (Json.str "X") 1 2
    idemDb1 (idemDb1.ideas.get ⟨0, by simp [idemDb1]⟩)
    idemDb2 (idemDb2.ideas.get ⟨0, by simp [idemDb2]⟩)
    (by rfl) (by rfl)

/-! ### C10 — applying a section when the stored document is null -/

/-- C10: `UPDATE_SECTION_DATA` on an existing idea whose `expandedData` is null
does not fail: the document defaults to empty and the stored result is exactly
the one merged key. -/
theorem update_section_null_doc (db : DB) (ideaId k : String) (v : Json) (now : Nat)
    (row : IdeaRow) (h : db.ideas.find? (fun r => r.id == ideaId) = some row)
    (hnull : row.expandedData = none) :
    ∃ db' row', updateSectionData db ideaId k v now = .ok (db', row') ∧
      row'.expandedData = some [(k, v)] ∧
      getIdea db' ideaId = some row' := by
  have hid : row.id = ideaId := by
    have := List.find?_some h
    simpa using this
  refine ⟨{ db with ideas := db.ideas.map (fun r => if r.id == ideaId
      then { row with expandedData := some (alistSet (row.expandedData.getD []) k v),
                      updatedAt := now } else r) },
    { row with expandedData := some (alistSet (row.expandedData.getD []) k v),
                updatedAt := now }, ?_, ?_, ?_⟩
  · simp [updateSectionData, h]
  · show some (alistSet (row.expandedData.getD []) k v) = some [(k, v)]
    rw [hnull]
    rfl
  · exact find_map_update db.ideas ideaId row _ h (by simpa using hid)

/-- Store used by the C10 witness: an idea whose document is absent. -/
def nullDocDb : DB :=
  { ideas := [{ id := "idea-1", originalPrompt := "p", expandedData := none,
                createdAt := 0, updatedAt := 0 }],
    evaluations := [] }

/-- Witness for C10 at a concrete store. -/
theorem update_section_null_doc_witness :
    ∃ db' row', updateSectionData nullDocDb "idea-1" "features" (Json.str "F") 9
        = .ok (db', row') ∧
      row'.expandedData = some [("features", Json.str "F")] ∧
      getIdea db' "idea-1" = some row' :=
  update_section_null_doc nullDocDb "idea-1" "features" (Json.str "F") 9
    (nullDocDb.ideas.get ⟨0, by simp [nullDocDb]⟩) (by rfl) (by rfl)

/-! ### C3 — schema wrapping and key extraction in RE_EXPAND_SECTION -/

/-- Store used by the C3 counterexample. -/
def c3db : DB :=
  { ideas := [{ id := "idea-1", originalPrompt := "p",
                expandedData := some [("features",
                  Json.arr [Json.obj [("title", Json.str "Old feature"),
                    ("description", Json.str "old")]])],
                createdAt := 0, updatedAt := 0 }],
    evaluations := [] }

/-- Input used by the C3 counterexample. -/
def c3input : ReExpandInput :=
  { ideaId := "idea-1", sectionKey := "features", customPrompt := none,
    originalPrompt := "p" }

/-- An AI response object that does not contain the requested key. -/
def c3aiObject : Json := Json.obj [("sections", Json.str "wrong shape")]

/-- C3 (counterexample): when the AI response object does not contain the
requested "features" key at all, RE_EXPAND_SECTION does not fail with any
section-data-missing error — it succeeds and uses the whole response object as
the new section value, so no single key is extracted. -/
theorem re_expand_no_key_extraction_counterexample :
    reExpandSection c3db c3input (fun _ => GenResult.mk (some c3aiObject))
      = .ok (c3db, { sectionKey := "features", newData := c3aiObject,
                     previousData := some (Json.arr [Json.obj [
                       ("title", Json.str "Old feature"),
                       ("description", Json.str "old")]]) }) ∧
    c3aiObject.getField "features" = none :=
  ⟨rfl, rfl⟩

/-- C3 (amended): the generator is invoked with the section's registry schema
directly — not wrapped in a one-key object — the whole returned object becomes
the new section value with no per-key extraction, and the only
generation-stage failure is absence of the returned object. -/
theorem re_expand_bare_schema_whole_object (db : DB) (i : ReExpandInput)
    (ai : ReExpandGenCall → GenResult) (call : ReExpandGenCall) (prev : Option Json)
    (hprep : reExpandPrepare db i = .ok (call, prev)) :
    alistLookup sectionSchemas i.sectionKey = some call.schema ∧
    ((ai call).object = none → reExpandSection db i ai = .error .aiNoObject) ∧
    (∀ o, (ai call).object = some o →
      reExpandSection db i ai = .ok (db, ⟨i.sectionKey, o, prev⟩)) := by
  refine ⟨(reExpandPrepare_spec db i call prev hprep).2, ?_, ?_⟩
  · intro hnone
    simp [reExpandSection, hprep, hnone]
  · intro o ho
    simp [reExpandSection, hprep, ho]

/-- Store used by the C3 witness. -/
def c3witDb : DB :=
  { ideas := [{ id := "idea-1", originalPrompt := "p",
                expandedData := some [("title", Json.str "Old")],
                createdAt := 0, updatedAt := 0 }],
    evaluations := [] }

/-- Input used by the C3 witness. -/
def c3witInput : ReExpandInput :=
  { ideaId := "idea-1", sectionKey := "title", customPrompt := some "X",
    originalPrompt := "p" }

/-- The generation request RE_EXPAND_SECTION assembles for the C3 witness. -/
def c3witCall : ReExpandGenCall :=
  { sectionKey := "title", originalPrompt := "p",
    currentData := some [("title", Json.str "Old")], promptDescription := "X",
    schema := Json.obj [("type", Json.str "string"),
      ("description", Json.str "A clear, compelling title for the software idea. Example: \"Sistema de Pesquisa Eleitoral\"")] }

/-- Witness for the amended C3 at a concrete store, input and oracle. -/
theorem re_expand_bare_schema_whole_object_witness :
    alistLookup sectionSchemas c3witInput.sectionKey = some c3witCall.schema ∧
    (((fun _ => GenResult.mk (some (Json.str "New"))) c3witCall).object = none →
      reExpandSection c3witDb c3witInput (fun _ => GenResult.mk (some (Json.str "New")))
        = .error .aiNoObject) ∧
    (∀ o, ((fun _ => GenResult.mk (some (Json.str "New"))) c3witCall).object = some o →
      reExpandSection c3witDb c3witInput (fun _ => GenResult.mk (some (Json.str "New")))
        = .ok (c3witDb, ⟨c3witInput.sectionKey, o, some (Json.str "Old")⟩)) :=
  re_expand_bare_schema_whole_object c3witDb c3witInput
    (fun _ => GenResult.mk (some (Json.str "New"))) c3witCall
    (some (Json.str "Old")) (by rfl)

/-! ### C6 — overallScore is the recomputed mean of the six criterion scores -/

/-- C6: for every schema-conforming evaluation result, the persisted
evaluation row carries exactly the unweighted arithmetic mean of the six
criterion scores — computed from the response alone — together with the
response criteria, and the row is stored. -/
theorem evaluate_overall_mean (db : DB) (ideaId : String) (o : EvaluationObject)
    (newId : String) (now : Nat) (db' : DB) (row : EvaluationRow)
    (h : evaluateIdea db ideaId (some o) newId now = .ok (db', row)) :
    row.overallScore = (o.ambiguityAvoidance.score + o.interestLevel.score
      + o.marketPotential2025.score + o.technicalFeasibility.score
      + o.innovationLevel.score + o.userValueProposition.score) / 6 ∧
    row.criteria = o ∧
    row ∈ db'.evaluations := by
  rw [show evaluateIdea db ideaId (some o) newId now
      = .ok ({ db with evaluations := db.evaluations ++
          [{ id := newId, ideaId := ideaId, criteria := o,
             overallScore := [o.ambiguityAvoidance.score, o.interestLevel.score,
               o.marketPotential2025.score, o.technicalFeasibility.score,
               o.innovationLevel.score, o.userValueProposition.score].foldl
                 (fun sum score => sum + score) 0 / (([o.ambiguityAvoidance.score,
               o.interestLevel.score, o.marketPotential2025.score,
               o.technicalFeasibility.score, o.innovationLevel.score,
               o.userValueProposition.score].length : ℚ)),
             createdAt := now }] },
        { id := newId, ideaId := ideaId, criteria := o,
          overallScore := [o.ambiguityAvoidance.score, o.interestLevel.score,
            o.marketPotential2025.score, o.technicalFeasibility.score,
            o.innovationLevel.score, o.userValueProposition.score].foldl
              (fun sum score => sum + score) 0 / (([o.ambiguityAvoidance.score,
            o.interestLevel.score, o.marketPotential2025.score,
            o.technicalFeasibility.score, o.innovationLevel.score,
            o.userValueProposition.score].length : ℚ)),
          createdAt := now }) from rfl] at h
  rw [Except.ok.injEq, Prod.mk.injEq] at h
  obtain ⟨hdb, hrow⟩ := h
  subst hdb
  subst hrow
  refine ⟨?_, rfl, by simp⟩
  show [o.ambiguityAvoidance.score, o.interestLevel.score,
      o.marketPotential2025.score, o.technicalFeasibility.score,
      o.innovationLevel.score, o.userValueProposition.score].foldl
        (fun sum score => sum + score) 0 / _ = _
  simp [List.foldl]

/-- Evaluation object used by the C6 witness (scores 8, 7, 9, 6, 8, 7). -/
def c6obj : EvaluationObject :=
  { ambiguityAvoidance := ⟨8, "clear"⟩, interestLevel := ⟨7, "good"⟩,
    marketPotential2025 := ⟨9, "strong"⟩, technicalFeasibility := ⟨6, "ok"⟩,
    innovationLevel := ⟨8, "fresh"⟩, userValueProposition := ⟨7, "useful"⟩ }

/-- Empty store used by the C6 witness. -/
def c6db : DB := { ideas := [], evaluations := [] }

/-- The row the C6 witness evaluation persists. -/
def c6row : EvaluationRow :=
  { id := "eval-1", ideaId := "idea-1", criteria := c6obj,
    overallScore := [(8 : ℚ), 7, 9, 6, 8, 7].foldl (fun sum score => sum + score) 0
      / (([(8 : ℚ), 7, 9, 6, 8, 7].length : ℚ)),
    createdAt := 5 }

/-- The store after the C6 witness evaluation. -/
def c6dbAfter : DB := { ideas := [], evaluations := [c6row] }

/-- Witness for C6: scores 8, 7, 9, 6, 8, 7 persist an overallScore equal to
their mean, which is exactly 7.5. -/
theorem evaluate_overall_mean_witness :
    ((8 : ℚ) + 7 + 9 + 6 + 8 + 7) / 6 = 15 / 2 ∧
    (c6row.overallScore = ((8 : ℚ) + 7 + 9 + 6 + 8 + 7) / 6 ∧
      c6row.criteria = c6obj ∧ c6row ∈ c6dbAfter.evaluations) :=
  ⟨by norm_num,
   evaluate_overall_mean c6db "idea-1" c6obj "eval-1" 5 c6dbAfter c6row (by rfl)⟩

/-! ### C7 — object-absence handling at the generation call sites -/

/-- C7 (amended): every pipeline call site that consumes a generation result —
whole-document expansion (both versions), external-tools suggestion,
evaluation, and section regeneration — converts object-absence into a thrown
domain error; the `AI_GENERATE_OBJECT` proxy tool is the exception recorded by
the counterexample. -/
theorem generation_call_sites_check_absence :
    (∀ r : GenResult, r.object = none → inlineExpandIdeaResult r = .error .aiNoObject) ∧
    (∀ r : GenResult, r.object = none → suggestExternalToolsResult r = .error .aiNoObject) ∧
    (∀ (p : String) (r : GenResult), r.object = none →
      inlineExpandIdeaExpansion false p r = .error .aiNoObject) ∧
    (∀ (db : DB) (ideaId newId : String) (now : Nat),
      evaluateIdea db ideaId none newId now = .error .aiNoObject) ∧
    (∀ (db : DB) (i : ReExpandInput) (ai : ReExpandGenCall → GenResult)
      (call : ReExpandGenCall) (prev : Option Json),
      reExpandPrepare db i = .ok (call, prev) → (ai call).object = none →
      reExpandSection db i ai = .error .aiNoObject) := by
  refine ⟨?_, ?_, ?_, ?_, ?_⟩
  · intro r h
    simp [inlineExpandIdeaResult, h]
  · intro r h
    simp [suggestExternalToolsResult, h]
  · intro p r h
    simp [inlineExpandIdeaExpansion, h]
  · intro db ideaId newId now
    rfl
  · intro db i ai call prev hprep hnone
    simp [reExpandSection, hprep, hnone]

/-- Empty store used by the C7 witness. -/
def c7db : DB := { ideas := [], evaluations := [] }

/-- Store used by the C7 witness for the section-regeneration call site. -/
def c7reDb : DB :=
  { ideas := [{ id := "idea-1", originalPrompt := "p", expandedData := none,
                createdAt := 0, updatedAt := 0 }],
    evaluations := [] }

/-- Input used by the C7 witness for the section-regeneration call site. -/
def c7reInput : ReExpandInput :=
  { ideaId := "idea-1", sectionKey := "title", customPrompt := some "X",
    originalPrompt := "p" }

/-- The request the C7 witness section regeneration assembles. -/
def c7reCall : ReExpandGenCall :=
  { sectionKey := "title", originalPrompt := "p", currentData := none,
    promptDescription := "X",
    schema := Json.obj [("type", Json.str "string"),
      ("description", Json.str "A clear, compelling title for the software idea. Example: \"Sistema de Pesquisa Eleitoral\"")] }

/-- Witness for the amended C7 at concrete absent-object responses. -/
theorem generation_call_sites_check_absence_witness :
    inlineExpandIdeaResult ⟨none⟩ = .error .aiNoObject ∧
    suggestExternalToolsResult ⟨none⟩ = .error .aiNoObject ∧
    inlineExpandIdeaExpansion false "p" ⟨none⟩ = .error .aiNoObject ∧
    evaluateIdea c7db "idea-1" none "eval-1" 0 = .error .aiNoObject ∧
    reExpandSection c7reDb c7reInput (fun _ => ⟨none⟩) = .error .aiNoObject :=
  ⟨generation_call_sites_check_absence.1 ⟨none⟩ rfl,
   generation_call_sites_check_absence.2.1 ⟨none⟩ rfl,
   generation_call_sites_check_absence.2.2.1 "p" ⟨none⟩ rfl,
   generation_call_sites_check_absence.2.2.2.1 c7db "idea-1" "eval-1" 0,
   generation_call_sites_check_absence.2.2.2.2 c7reDb c7reInput (fun _ => ⟨none⟩)
     c7reCall none (by rfl) rfl⟩

/-- A request used by the C7 counterexample. -/
def c7request : RawGenRequest :=
  { messages := [("user", "hi")], schema := Json.obj [], model := none,
    maxTokens := none, temperature := none }

/-- An upstream response with no object. -/
def c7noObject : RawGenResult :=
  { object := none, promptTokens := 1, completionTokens := 0, totalTokens := 1,
    transactionId := "t", finishReason := some "stop" }

/-- C7 (counterexample): the `AI_GENERATE_OBJECT` proxy tool is a call site of
the external boundary that returns a response without an object unchanged as a
success — it neither throws nor converts the absence into a domain error. -/
theorem ai_proxy_propagates_absent_object_counterexample :
    aiGenerateObjectProxy (fun _ => c7noObject) c7request = c7noObject ∧
    c7noObject.object = none :=
  ⟨rfl, rfl⟩

/-! ### C9 — evaluation history is kept, but retrieval is unordered -/

/-- C9 (amended): re-running evaluation appends a new row and deletes nothing;
`GET_EVALUATION` returns the first matching row in storage (insertion) order —
its query has no ordering, so the row returned is the oldest stored one, not
the most recent. -/
theorem evaluation_history_and_first_returned :
    (∀ (db : DB) (ideaId : String) (res : Option EvaluationObject)
      (newId : String) (now : Nat) (db' : DB) (row : EvaluationRow),
      evaluateIdea db ideaId res newId now = .ok (db', row) →
      db'.evaluations = db.evaluations ++ [row]) ∧
    (∀ (db : DB) (ideaId : String) (e : EvaluationRow),
      getEvaluation db ideaId = some e →
      e.ideaId = ideaId ∧ ∃ pre post, db.evaluations = pre ++ e :: post ∧
        ∀ x ∈ pre, x.ideaId ≠ ideaId) := by
  constructor
  · intro db ideaId res newId now db' row h
    cases res with
    | none => cases h
    | some o =>
      simp only [evaluateIdea] at h
      rw [Except.ok.injEq, Prod.mk.injEq] at h
      obtain ⟨hdb, hrow⟩ := h
      rw [← hdb, ← hrow]
  · intro db ideaId e h
    exact filter_head_first db.evaluations ideaId e h

/-- Evaluation object used by the C9 witness and counterexample. -/
def histObjA : EvaluationObject :=
  { ambiguityAvoidance := ⟨8, "a"⟩, interestLevel := ⟨7, "b"⟩,
    marketPotential2025 := ⟨9, "c"⟩, technicalFeasibility := ⟨6, "d"⟩,
    innovationLevel := ⟨8, "e"⟩, userValueProposition := ⟨7, "f"⟩ }

/-- A second evaluation object with different scores. -/
def histObjB : EvaluationObject :=
  { ambiguityAvoidance := ⟨5, "a"⟩, interestLevel := ⟨5, "b"⟩,
    marketPotential2025 := ⟨5, "c"⟩, technicalFeasibility := ⟨5, "d"⟩,
    innovationLevel := ⟨5, "e"⟩, userValueProposition := ⟨5, "f"⟩ }

/-- Empty store used by the C9 witness. -/
def histDb0 : DB := { ideas := [], evaluations := [] }

/-- The row persisted by the first C9 evaluation run. -/
def histRow1 : EvaluationRow :=
  { id := "eval-1", ideaId := "idea-1", criteria := histObjA,
    overallScore := [(8 : ℚ), 7, 9, 6, 8, 7].foldl (fun sum score => sum + score) 0
      / (([(8 : ℚ), 7, 9, 6, 8, 7].length : ℚ)),
    createdAt := 100 }

/-- The store after the first C9 evaluation run. -/
def histDb1 : DB := { ideas := [], evaluations := [histRow1] }

/-- Witness for the amended C9 at a concrete store. -/
theorem evaluation_history_and_first_returned_witness :
    histDb1.evaluations = histDb0.evaluations ++ [histRow1] ∧
    (histRow1.ideaId = "idea-1" ∧ ∃ pre post, histDb1.evaluations = pre ++ histRow1 :: post ∧
      ∀ x ∈ pre, x.ideaId ≠ "idea-1") :=
  ⟨evaluation_history_and_first_returned.1 histDb0 "idea-1" (some histObjA)
      "eval-1" 100 histDb1 histRow1 (by rfl),
   evaluation_history_and_first_returned.2 histDb1 "idea-1" histRow1 (by rfl)⟩

/-- The first C9 counterexample evaluation run. -/
def cexStep1 : Except ToolError (DB × EvaluationRow) :=
  evaluateIdea histDb0 "idea-1" (some histObjA) "eval-1" 100

/-- The C9 counterexample re-run on the store the first run produced. -/
def cexStep2 : Except ToolError (DB × EvaluationRow) :=
  match cexStep1 with
  | .ok (db1, _) => evaluateIdea db1 "idea-1" (some histObjB) "eval-2" 200
  | .error e => .error e

/-- C9 (counterexample): after re-running evaluation, both rows are stored
(nothing deleted), yet `GET_EVALUATION` returns the first-inserted row
"eval-1" (createdAt 100) — not the most recent "eval-2" (createdAt 200). -/
theorem get_evaluation_not_most_recent_counterexample :
    (match cexStep2 with
      | .ok (db2, _) => (getEvaluation db2 "idea-1").map (fun e => (e.id, e.createdAt))
      | .error _ => none)
      = some ("eval-1", 100) ∧
    (match cexStep2 with
      | .ok (db2, _) => db2.evaluations.map (fun e => (e.id, e.createdAt))
      | .error _ => [])
      = [("eval-1", 100), ("eval-2", 200)] :=
  ⟨rfl, rfl⟩

end Pronto
